import Mathlib

/-!
Verification of the cv-tool repository's frontend API client and page logic
(src/frontend/app/lib/api.ts, src/frontend/app/page.tsx) against its
natural-language specification.  Pure functions from the TypeScript source are
shallowly embedded as Lean functions; the network is modelled explicitly
(responses are parameters, the single-request property uses a small
free-monad program type).  The FastAPI backend is not part of the source
tree; where a property is decided by backend behaviour, the backend is
modelled from the specification and marked as such in its doc comment.
-/

namespace CvTool

/-! ## JavaScript string primitives -/

/-- JavaScript `String.prototype.trim`: strip leading and trailing
whitespace.  Defined over the character list so that it evaluates inside
proofs. -/
def jsTrim (s : String) : String :=
  String.mk (((s.data.dropWhile Char.isWhitespace).reverse.dropWhile
    Char.isWhitespace).reverse)

/-- JavaScript `String.prototype.startsWith`: the second string begins with
the first. -/
def jsStartsWith (pre s : String) : Bool :=
  pre.data.isPrefixOf s.data

/-! ## Data model (api.ts `Profile` and friends) -/

/-- One work-history entry (api.ts `Profile.experience` element type). -/
structure Experience where
  title : String
  company : String
  start_date : Option String := none
  end_date : Option String := none
  description : Option String := none
  location : Option String := none
deriving Repr, DecidableEq

/-- One education entry (api.ts `Profile.education` element type). -/
structure Education where
  school : String
  degree : Option String := none
  field : Option String := none
  start_date : Option String := none
  end_date : Option String := none
  description : Option String := none
deriving Repr, DecidableEq

/-- One certification entry (api.ts `Profile.certifications` element type). -/
structure Certification where
  name : String
  authority : Option String := none
  date : Option String := none
  url : Option String := none
deriving Repr, DecidableEq

/-- The reusable career record (api.ts `Profile`). -/
structure Profile where
  full_name : String
  headline : Option String := none
  summary : String
  email : Option String := none
  phone : Option String := none
  address : Option String := none
  linkedin_url : Option String := none
  photo_base64 : Option String := none
  experience : List Experience
  education : List Education
  skills : List String
  certifications : List Certification
  languages : List String
deriving Repr, DecidableEq

/-- The all-blank profile (page.tsx `emptyProfile`, identical to
api.ts `emptyProfileStub`). -/
def emptyProfile : Profile :=
  { full_name := ""
    headline := none
    summary := ""
    email := none
    phone := none
    address := none
    linkedin_url := none
    photo_base64 := none
    experience := []
    education := []
    skills := []
    certifications := []
    languages := [] }

/-- Per-user stored data (api.ts `UserData`). -/
structure UserData where
  profile : Profile
  additional_urls : List String
  personal_summary : String
  onboarding_complete : Bool
deriving Repr, DecidableEq

/-- page.tsx `hasProfileData`: the profile has substance when the trimmed
name or trimmed summary is non-blank, or any of experience, education,
skills is non-empty.  Certifications, languages and photo are not consulted. -/
def hasProfileData (p : Profile) : Bool :=
  (!(jsTrim p.full_name = "")) || (!(jsTrim p.summary = "")) ||
    decide (p.experience.length > 0) || decide (p.education.length > 0) ||
    decide (p.skills.length > 0)

/-- The spec's notion of an empty profile: "no name, no summary, no
experience, no education, no skills" (blank meaning blank after trimming). -/
def specEmptyProfile (p : Profile) : Prop :=
  jsTrim p.full_name = "" ∧ jsTrim p.summary = "" ∧
    p.experience = [] ∧ p.education = [] ∧ p.skills = []

instance (p : Profile) : Decidable (specEmptyProfile p) := by
  unfold specEmptyProfile; infer_instance

/-! ## Client request shapes -/

/-- api.ts `GenerateCVRequest` (the JSON body sent to `generate-cv`).
`tailored` payload fields of the response are opaque to the client. -/
structure GenerateCVRequest where
  profile : Profile
  job_description : String
  personal_summary : Option String := none
  additional_urls : List String
  language : String
  template : Option String := none
deriving Repr, DecidableEq

/-- Predicate applied to user-entered URL rows before they are sent
(page.tsx: `(u) => u.trim().startsWith('http')`). -/
def urlFilterPred (u : String) : Bool :=
  jsStartsWith "http" (jsTrim u)

/-- page.tsx `handleOnboardingNextFromUrls`: the list persisted as
`additional_urls` is the entered list filtered by `urlFilterPred`. -/
def onboardingUrlsToSave (additionalUrls : List String) : List String :=
  additionalUrls.filter urlFilterPred

/-- Outcome of page.tsx `handleGenerate` before any network activity:
either the handler refuses (sets an error message and never calls
`generateCV`), or it calls `generateCV` with the request it built. -/
inductive GenerateAction where
  | refuse (message : String)
  | call (req : GenerateCVRequest)
deriving Repr, DecidableEq

/-- page.tsx `handleGenerate` (lines 193-220), up to the `generateCV` call:
takes the loaded user data (or none), the job-description textarea, the
selected language and template, and either refuses with the fixed error
message when `hasProfileData` is false, or builds the `GenerateCVRequest`
exactly as the source does (trimmed job description, trimmed personal
summary or absent when blank, URL rows filtered by `urlFilterPred`). -/
def handleGenerate (userData : Option UserData)
    (jobDescription language template : String) : GenerateAction :=
  let profile := (userData.map UserData.profile).getD emptyProfile
  if hasProfileData profile then
    let urls := match userData with
      | none => []
      | some ud => ud.additional_urls.filter urlFilterPred
    let ps := match userData with
      | none => none
      | some ud =>
          let s := jsTrim ud.personal_summary
          if s = "" then none else some s
    GenerateAction.call
      { profile := profile
        job_description := jsTrim jobDescription
        personal_summary := ps
        additional_urls := urls
        language := language
        template := some template }
  else
    GenerateAction.refuse "Profile is missing. Edit your information first."

/-! ## Spec-modelled backend: generation orchestrator -/

/-- Errors of the backend generation pipeline (spec section 7 taxonomy,
restricted to the generation path). -/
inductive GenError where
  | MissingInputError
  | GenerationError
deriving Repr, DecidableEq

/-- Output of the CV-tailoring language-model sub-step (spec 4.3 step 3:
summary rewrite, per-experience-entry rewrite, suggested skill keywords). -/
structure CVTailorOutput where
  tailored_summary : String
  tailored_experience : List String
  suggested_skills_highlight : List String
deriving Repr, DecidableEq

/-- A persisted generation record (spec section 3 `Session`, outputs part). -/
structure Session where
  session_id : String
  tailored_summary : String
  tailored_experience : List String
  motivation_letter : String
  suggested_skills_highlight : List String
  status : String
deriving Repr, DecidableEq

/-- Modelled from the spec: the backend generation orchestrator
(`generate-cv` route of the FastAPI backend, which is not under src/).
Spec 4.3: step 1 fails with `MissingInputError` when the profile itself is
empty (no name, no summary, no experience, no education, no skills),
regardless of the job description; step 3 runs the CV-tailoring sub-step and
the cover-letter sub-step, each of which can independently fail (modelled
here as `Option` results handed to the outcome builder); step 4 builds the
outcome: CV failure fails the whole call with `GenerationError` and no
Session, CV success yields a Session with status "success" whose letter
field is the letter result or the empty string when that sub-step failed;
step 5 persists the Session under a fresh opaque id. -/
def generate (profile : Profile) (_job_description : String)
    (cvStep : Option CVTailorOutput) (letterStep : Option String)
    (newId : String) : Except GenError Session :=
  if specEmptyProfile profile then
    Except.error GenError.MissingInputError
  else
    match cvStep with
    | none => Except.error GenError.GenerationError
    | some cv =>
        Except.ok
          { session_id := newId
            tailored_summary := cv.tailored_summary
            tailored_experience := cv.tailored_experience
            motivation_letter := letterStep.getD ""
            suggested_skills_highlight := cv.suggested_skills_highlight
            status := "success" }

/-! ## Profile save/load (putProfile, putUserData, getProfile) -/

/-- JSON body of a `PUT /api/profile` request as built by api.ts
`putUserData`: each key is included exactly when the corresponding update
field was supplied. -/
structure UserDataUpdates where
  profile : Option Profile := none
  additional_urls : Option (List String) := none
  personal_summary : Option String := none
  onboarding_complete : Option Bool := none
deriving Repr, DecidableEq

/-- api.ts `putUserData` body construction: copy over exactly the supplied
fields (undefined updates contribute no key). -/
def putUserDataBody (updates : UserDataUpdates) : UserDataUpdates :=
  { profile := updates.profile
    additional_urls := updates.additional_urls
    personal_summary := updates.personal_summary
    onboarding_complete := updates.onboarding_complete }

/-- api.ts `putProfile`: delegates to `putUserData` with only the profile
field, so the request body carries exactly the profile key. -/
def putProfileBody (p : Profile) : UserDataUpdates :=
  putUserDataBody { profile := some p }

/-- Wire shape of the backend's profile-route JSON response as the client
sees it: every field may be missing or of the wrong shape, hence optional. -/
structure WireUserData where
  profile : Option Profile := none
  additional_urls : Option (List String) := none
  personal_summary : Option String := none
  onboarding_complete : Option Bool := none
deriving Repr, DecidableEq

/-- api.ts response decoding shared by `getProfile` and `putUserData`:
`data.profile ?? emptyProfileStub()`, `Array.isArray(...) ? ... : []`,
`typeof ... === 'string' ? ... : ''`, `Boolean(...)`. -/
def decodeUserData (d : WireUserData) : UserData :=
  { profile := d.profile.getD emptyProfile
    additional_urls := d.additional_urls.getD []
    personal_summary := d.personal_summary.getD ""
    onboarding_complete := d.onboarding_complete.getD false }

/-- Modelled from the spec: the backend profile store behind
`PUT /api/profile` (FastAPI backend, not under src/).  Spec section 3:
the profile is "mutated wholesale on each save (no field-level diffing)"
and section 5: writes are last-write-wins; each key present in the request
body replaces the stored value wholesale. -/
def serverPutUserData (st : UserData) (b : UserDataUpdates) : UserData :=
  { profile := b.profile.getD st.profile
    additional_urls := b.additional_urls.getD st.additional_urls
    personal_summary := b.personal_summary.getD st.personal_summary
    onboarding_complete := b.onboarding_complete.getD st.onboarding_complete }

/-- Modelled from the spec: the backend's profile-route response
(`GET /api/profile` and the `PUT` echo), which returns the stored record
with all fields present. -/
def serverUserDataResponse (st : UserData) : WireUserData :=
  { profile := some st.profile
    additional_urls := some st.additional_urls
    personal_summary := some st.personal_summary
    onboarding_complete := some st.onboarding_complete }

/-- The client-observable result of `getProfile()` against server state
`st`: decode of the server's response. -/
def getProfileResult (st : UserData) : UserData :=
  decodeUserData (serverUserDataResponse st)

/-! ## Session store and PDF download (C4) -/

/-- Modelled from the spec: one stored generation record of the Session
Store, keyed by opaque id and owning user (spec 4.5); `pdf` stands for the
rendered CV bytes attached to the session. -/
structure StoredSession where
  id : String
  owner : String
  pdf : List Nat
deriving Repr, DecidableEq

/-- Session-store / download error (spec 4.5 and section 7). -/
inductive StoreError where
  | NotFoundError
deriving Repr, DecidableEq

/-- The lookup key of the Session Store: both the opaque id and the owning
user must match. -/
def sessionMatches (id ownr : String) (s : StoredSession) : Bool :=
  decide (s.id = id) && decide (s.owner = ownr)

/-- Modelled from the spec: Session Store `get(id, owner)` (spec 4.5):
returns the session only when both the id and the owner match; fails with
`NotFoundError` when the id is unknown or the owner mismatches. -/
def sessionGet (store : List StoredSession) (id ownr : String) :
    Except StoreError StoredSession :=
  match store.find? (sessionMatches id ownr) with
  | some s => Except.ok s
  | none => Except.error StoreError.NotFoundError

/-- Modelled from the spec: the `download-pdf/{id}` route (FastAPI backend,
not under src/): looks the session up scoped to the requesting user and
streams its PDF bytes; propagates `NotFoundError` otherwise. -/
def downloadPdfRoute (store : List StoredSession) (id requester : String) :
    Except StoreError (List Nat) :=
  (sessionGet store id requester).map StoredSession.pdf

/-- A binary-download HTTP response as seen by api.ts `downloadPdf`. -/
structure PdfResponse where
  ok : Bool
  blob : List Nat
deriving Repr, DecidableEq

/-- Client-observable outcome of api.ts `downloadPdf`: either the function
threw (no anchor click, nothing saved), or it triggered exactly one file
download of the response blob under the computed filename. -/
inductive DownloadOutcome where
  | threw (message : String)
  | saved (bytes : List Nat) (filename : String)
deriving Repr, DecidableEq

/-- api.ts `downloadPdf` (lines 476-486): throws "Download failed" whenever
the response is not ok; otherwise saves the blob under the supplied
filename or the default derived from the first 8 characters of the id. -/
def downloadPdf (res : PdfResponse) (sessionId : String)
    (filename : Option String) : DownloadOutcome :=
  if res.ok then
    DownloadOutcome.saved res.blob
      (filename.getD ("cv_" ++ (sessionId.take 8) ++ ".pdf"))
  else
    DownloadOutcome.threw "Download failed"

/-! ## Status-code based client calls: getMe, getGeneratedCVs -/

/-- The WHATWG fetch `Response.ok` flag: status in the range 200-299. -/
def respOk (status : Nat) : Bool :=
  decide (200 ≤ status) && decide (status < 300)

/-- An authenticated user (api.ts `AuthUser`). -/
structure AuthUser where
  id : String
  email : String
deriving Repr, DecidableEq

/-- A JSON response to `GET /api/auth/me` as `getMe` consumes it: the HTTP
status and the payload the body parses to when the request succeeded. -/
structure MeResponse where
  status : Nat
  user : AuthUser
deriving Repr, DecidableEq

/-- api.ts `getMe` (lines 251-256): status 401 means "not signed in" and
returns null; any other non-ok response throws "Failed to get user"; an ok
response returns the parsed user payload. -/
def getMe (res : MeResponse) : Except String (Option AuthUser) :=
  if res.status = 401 then Except.ok none
  else if respOk res.status then Except.ok (some res.user)
  else Except.error "Failed to get user"

/-- One history-list entry (api.ts `GeneratedCVItem`). -/
structure GeneratedCVItem where
  session_id : String
  created_at : String
  has_cv : Bool
  has_letter_pdf : Bool
deriving Repr, DecidableEq

/-- A JSON response to `GET /api/generated-cvs` as `getGeneratedCVs`
consumes it. -/
structure GeneratedListResponse where
  status : Nat
  body : List GeneratedCVItem
deriving Repr, DecidableEq

/-- api.ts `getGeneratedCVs` (lines 468-473): a 401 response yields the
empty list (not an error); any other non-ok response throws
"Failed to load generated CVs"; an ok response returns the parsed list. -/
def getGeneratedCVs (res : GeneratedListResponse) :
    Except String (List GeneratedCVItem) :=
  if res.status = 401 then Except.ok []
  else if respOk res.status then Except.ok res.body
  else Except.error "Failed to load generated CVs"

/-! ## generateCV: the one-request program (C5) -/

/-- Opaque record in the `tailored_experience` array of the response
(`Array<Record<string, unknown>>`): the client treats each entry as an
uninterpreted bag of fields. -/
structure ExpRecord where
  fields : List (String × String)
deriving Repr, DecidableEq

/-- api.ts `GenerateCVResponse`. -/
structure GenerateCVResponse where
  session_id : String
  tailored_summary : String
  tailored_experience : List ExpRecord
  motivation_letter : String
  suggested_skills_highlight : List String
  status : String
deriving Repr, DecidableEq

/-- The error object a non-ok response body parses to (`{ detail?: string }`). -/
structure ErrBody where
  detail : Option String := none
deriving Repr, DecidableEq

/-- An HTTP response as `generateCV` consumes it: the `ok` flag, the
`statusText`, the result of `res.json()` read as an error object (`none`
models a body that fails to parse as JSON, the source's `.catch`), and the
payload the body parses to on the success path. -/
structure GenHttpResponse where
  ok : Bool
  statusText : String
  errJson : Option ErrBody := none
  genBody : GenerateCVResponse
deriving Repr, DecidableEq

/-- JavaScript `s || fallback` on an optional string: the fallback is used
when the field is absent or the empty string. -/
def jsOrString (s : Option String) (fallback : String) : String :=
  match s with
  | some d => if d = "" then fallback else d
  | none => fallback

/-- The error message api.ts `generateCV` throws for a non-ok response:
`err.detail || 'Failed to generate CV'` where `err` is the parsed body or
`{ detail: res.statusText }` when the body is not JSON. -/
def generateCVErrorMessage (res : GenHttpResponse) : String :=
  let err := res.errJson.getD { detail := some res.statusText }
  jsOrString err.detail "Failed to generate CV"

/-- A client program that may issue `generate-cv` POST requests and ends
with a value: either it is done, or it issues one fetch and continues on
the response.  `generateCV` is embedded as such a program so that "exactly
one HTTP request per invocation, no automatic retry" is a provable
statement about its trace under any network behaviour. -/
inductive FetchProg (α : Type) where
  | done (a : α)
  | fetch (url : String) (body : GenerateCVRequest)
      (k : GenHttpResponse → FetchProg α)

/-- Run a program against a network oracle (which response each request
gets), returning the final value and the list of requests issued. -/
def runProg {α : Type} (oracle : String → GenerateCVRequest → GenHttpResponse) :
    FetchProg α → α × List (String × GenerateCVRequest)
  | FetchProg.done a => (a, [])
  | FetchProg.fetch url body k =>
      let res := oracle url body
      let out := runProg oracle (k res)
      (out.1, (url, body) :: out.2)

/-- The path of the `generate-cv` endpoint relative to the API base. -/
def generateCVUrl : String := "/generate-cv"

/-- api.ts `generateCV` (lines 196-211 / 425-439): one POST of the request
body; an ok response returns the parsed payload, a non-ok response throws
the detail-derived message. -/
def generateCVProg (body : GenerateCVRequest) :
    FetchProg (Except String GenerateCVResponse) :=
  FetchProg.fetch generateCVUrl body (fun res =>
    if res.ok then FetchProg.done (Except.ok res.genBody)
    else FetchProg.done (Except.error (generateCVErrorMessage res)))

/-! ## fetchJobDescription and handleFetchJob (C7) -/

/-- JSON body of a `fetch-job-description` request: each key is present
exactly when serialized (JSON.stringify drops undefined values). -/
structure JobDescBody where
  url : Option String := none
  text : Option String := none
deriving Repr, DecidableEq

/-- JavaScript `v || undefined` on an optional string: null and the empty
string both become undefined (key absent). -/
def jsOrUndefined (s : Option String) : Option String :=
  match s with
  | some v => if v = "" then none else some v
  | none => none

/-- api.ts `fetchJobDescription` (lines 167-180) body construction:
`{ url: url || undefined, text: text || undefined }`. -/
def fetchJobDescriptionBody (url text : Option String) : JobDescBody :=
  { url := jsOrUndefined url, text := jsOrUndefined text }

/-- What page.tsx `handleFetchJob` does before the network call: nothing
when the textarea is blank after trimming, otherwise it calls
`fetchJobDescription` with the trimmed input as the url (URL toggle on) or
as the text (toggle off), the other argument null. -/
inductive FetchJobAction where
  | noop
  | send (url : Option String) (text : Option String)
deriving Repr, DecidableEq

/-- page.tsx `handleFetchJob` (lines 176-191), argument selection. -/
def handleFetchJobArgs (jobDescription : String) (jobIsUrl : Bool) :
    FetchJobAction :=
  if jsTrim jobDescription = "" then FetchJobAction.noop
  else if jobIsUrl then
    FetchJobAction.send (some (jsTrim jobDescription)) none
  else
    FetchJobAction.send none (some (jsTrim jobDescription))

/-- page.tsx `handleFetchJob` result handling:
`setJobDescription(content || jobDescription)` — the field becomes the
returned content when it is non-empty and keeps its previous value when the
returned content is the empty string. -/
def handleFetchJobUpdate (jobDescription content : String) : String :=
  if content = "" then jobDescription else content

/-! ## formatDate (page.tsx, generated-list rendering) (C10) -/

/-- The JavaScript `Date` operations `formatDate` relies on, abstracted
over the host's time zone and locale: day-of-month, month and year of a
timestamp (milliseconds), the timestamp produced by
`setDate(getDate() - 1)` (one calendar day earlier, with JS rollover), and
`toLocaleDateString` with short month and day, with or without a numeric
year. -/
structure Calendar where
  dayOfMonth : Int → Int
  month : Int → Int
  year : Int → Int
  prevDay : Int → Int
  localeDate : Int → Bool → String

/-- The `s`/`` plural suffix used by all relative forms
(`n === 1 ? '' : 's'`). -/
def pluralS (n : Int) : String :=
  if n = 1 then "" else "s"

/-- page.tsx `formatDate` (lines 518-539).  `parsed` is the result of
`new Date(createdAt)` (none models an invalid date, the `isNaN` branch),
`now` the current timestamp in milliseconds.  The function is total: the
source's `try`/`catch` (which would also return the input unchanged) is
unreachable in this model because every operation used is total. -/
def formatDate (cal : Calendar) (parsed : Option Int) (now : Int)
    (createdAt : String) : String :=
  match parsed with
  | none => createdAt
  | some d =>
      let diffMs : Int := now - d
      let diffMins : Int := Int.fdiv diffMs 60000
      let diffHours : Int := Int.fdiv diffMs 3600000
      let diffDays : Int := Int.fdiv diffMs 86400000
      if diffMins < 1 then "just now"
      else if diffMins < 60 then
        toString diffMins ++ " minute" ++ pluralS diffMins ++ " ago"
      else if diffHours < 24 ∧ cal.dayOfMonth now = cal.dayOfMonth d then
        toString diffHours ++ " hour" ++ pluralS diffHours ++ " ago"
      else
        let yd := cal.prevDay now
        if cal.dayOfMonth d = cal.dayOfMonth yd ∧ cal.month d = cal.month yd
            ∧ cal.year d = cal.year yd then "yesterday"
        else if diffDays < 7 then
          toString diffDays ++ " day" ++ pluralS diffDays ++ " ago"
        else if diffDays < 30 then
          toString (Int.fdiv diffDays 7) ++ " week"
            ++ pluralS (Int.fdiv diffDays 7) ++ " ago"
        else cal.localeDate d (decide (cal.year d ≠ cal.year now))

/-- The output shapes the claim enumerates for a parseable date: one of the
relative forms or a locale date string. -/
def recognizedDateForm (cal : Calendar) (res : String) : Prop :=
  res = "just now" ∨ res = "yesterday"
    ∨ (∃ n : Int, res = toString n ++ " minute" ++ pluralS n ++ " ago")
    ∨ (∃ n : Int, res = toString n ++ " hour" ++ pluralS n ++ " ago")
    ∨ (∃ n : Int, res = toString n ++ " day" ++ pluralS n ++ " ago")
    ∨ (∃ n : Int, res = toString n ++ " week" ++ pluralS n ++ " ago")
    ∨ (∃ t : Int, ∃ b : Bool, res = cal.localeDate t b)

/-- A concrete calendar used to evaluate the date theorems on closed
inputs: UTC-like arithmetic on a 30-day month is irrelevant to the
statements, so constant components suffice. -/
def sampleCal : Calendar :=
  { dayOfMonth := fun t => Int.emod (Int.fdiv t 86400000) 30
    month := fun t => Int.emod (Int.fdiv t 2592000000) 12
    year := fun t => 1970 + Int.fdiv t 31104000000
    prevDay := fun t => t - 86400000
    localeDate := fun _ b => if b then "Jan 1, 1970" else "Jan 1" }

/-! ## Theorems -/

/-- C1: For every Profile that is empty in the spec's sense (blank trimmed
name and summary, empty experience, education and skills — certifications,
languages and photo do not count), the spec-modelled `generate` fails with
`MissingInputError` for every job description and every sub-step behaviour;
`hasProfileData` is false exactly on such profiles; and `handleGenerate`
refuses (reporting an error, never calling `generateCV`) exactly when
`hasProfileData` is false on the profile it acts on. -/
theorem generate_refuses_empty_profile
    (p : Profile) (ud : Option UserData) (jd lang tmpl : String) :
    (specEmptyProfile p → ∀ (cv : Option CVTailorOutput) (lt : Option String)
        (newId : String),
        generate p jd cv lt newId = Except.error GenError.MissingInputError)
    ∧ (hasProfileData p = false ↔ specEmptyProfile p)
    ∧ ((∃ m, handleGenerate ud jd lang tmpl = GenerateAction.refuse m) ↔
        hasProfileData ((ud.map UserData.profile).getD emptyProfile) = false) := by
  refine ⟨?_, ?_, ?_⟩
  · intro h cv lt newId
    unfold generate
    rw [if_pos h]
  · simp [hasProfileData, specEmptyProfile, List.length_eq_zero,
      Nat.pos_iff_ne_zero]
    tauto
  · unfold handleGenerate
    cases h : hasProfileData ((ud.map UserData.profile).getD emptyProfile) <;>
      simp [h]

/-- Witness for `generate_refuses_empty_profile`: the all-blank profile is
spec-empty, the backend model rejects it with `MissingInputError` even with
a non-empty job description, and the client handler refuses for a user whose
stored profile is blank. -/
theorem generate_refuses_empty_profile_witness :
    generate emptyProfile "Backend engineer role requiring Go" none none "sid-1"
      = Except.error GenError.MissingInputError
    ∧ (∃ m, handleGenerate
        (some { profile := emptyProfile, additional_urls := [],
                personal_summary := "", onboarding_complete := true })
        "Backend engineer role requiring Go" "en" "cv_base.html"
        = GenerateAction.refuse m) := by
  have h := generate_refuses_empty_profile emptyProfile
    (some { profile := emptyProfile, additional_urls := [],
            personal_summary := "", onboarding_complete := true })
    "Backend engineer role requiring Go" "en" "cv_base.html"
  exact ⟨h.1 (by decide) none none "sid-1", h.2.2.mpr (by decide)⟩

/-- C2: For a non-empty Profile, when the CV-tailoring sub-step succeeds and
the cover-letter sub-step fails, the spec-modelled `generate` still returns
a Session with status "success", a non-empty tailored_summary and
motivation_letter equal to the empty string; when CV tailoring itself fails,
the whole call fails with `GenerationError` and no Session is produced. -/
theorem generate_letter_failure_partial_success
    (p : Profile) (jd newId : String) (cv : CVTailorOutput)
    (hp : ¬ specEmptyProfile p) (hs : cv.tailored_summary ≠ "") :
    (∃ s : Session,
        generate p jd (some cv) none newId = Except.ok s
        ∧ s.status = "success" ∧ s.tailored_summary ≠ ""
        ∧ s.motivation_letter = "")
    ∧ (∀ lt : Option String,
        generate p jd none lt newId = Except.error GenError.GenerationError) := by
  constructor
  · refine ⟨{ session_id := newId,
              tailored_summary := cv.tailored_summary,
              tailored_experience := cv.tailored_experience,
              motivation_letter := "",
              suggested_skills_highlight := cv.suggested_skills_highlight,
              status := "success" }, ?_, rfl, hs, rfl⟩
    unfold generate
    rw [if_neg hp]
    rfl
  · intro lt
    unfold generate
    rw [if_neg hp]

/-- Witness for `generate_letter_failure_partial_success`: a one-skill
profile with a successful CV sub-step and a failed letter sub-step. -/
theorem generate_letter_failure_partial_success_witness :
    (∃ s : Session,
        generate { full_name := "Jane Doe", summary := "Engineer",
                   experience := [], education := [], skills := ["Go"],
                   certifications := [], languages := [] }
          "Backend engineer role"
          (some { tailored_summary := "Seasoned Go engineer",
                  tailored_experience := [],
                  suggested_skills_highlight := ["Go"] })
          none "sid-2" = Except.ok s
        ∧ s.status = "success" ∧ s.tailored_summary ≠ ""
        ∧ s.motivation_letter = "")
    ∧ (∀ lt : Option String,
        generate { full_name := "Jane Doe", summary := "Engineer",
                   experience := [], education := [], skills := ["Go"],
                   certifications := [], languages := [] }
          "Backend engineer role" none lt "sid-2"
          = Except.error GenError.GenerationError) :=
  generate_letter_failure_partial_success
    { full_name := "Jane Doe", summary := "Engineer",
      experience := [], education := [], skills := ["Go"],
      certifications := [], languages := [] }
    "Backend engineer role" "sid-2"
    { tailored_summary := "Seasoned Go engineer",
      tailored_experience := [], suggested_skills_highlight := ["Go"] }
    (by decide) (by decide)

/-- C3: Round-trip — `putProfile(p)` sends a body carrying exactly the
profile field; saving against any server state and then reading back with
`getProfile()` yields `p` unchanged; and `getProfile()` in general returns
the stored profile field unchanged. -/
theorem putProfile_getProfile_roundtrip (st : UserData) (p : Profile) :
    putProfileBody p
      = { profile := some p, additional_urls := none,
          personal_summary := none, onboarding_complete := none }
    ∧ (getProfileResult (serverPutUserData st (putProfileBody p))).profile = p
    ∧ (getProfileResult st).profile = st.profile :=
  ⟨rfl, rfl, rfl⟩

/-- C4: For a session id owned only by users other than the requester, the
spec-modelled `download-pdf/{id}` route fails with `NotFoundError` and never
returns the PDF bytes; and the client `downloadPdf` throws "Download failed"
and triggers no file download whenever the response is not ok. -/
theorem downloadPdf_owner_mismatch
    (store : List StoredSession) (id requester : String)
    (hmis : ∀ s ∈ store, s.id = id → s.owner ≠ requester) :
    downloadPdfRoute store id requester = Except.error StoreError.NotFoundError
    ∧ (∀ (res : PdfResponse) (sid : String) (fn : Option String),
        res.ok = false →
        downloadPdf res sid fn = DownloadOutcome.threw "Download failed"
        ∧ ∀ (b : List Nat) (f : String),
            downloadPdf res sid fn ≠ DownloadOutcome.saved b f) := by
  constructor
  · have hnone : store.find? (sessionMatches id requester) = none := by
      apply List.find?_eq_none.mpr
      intro x hx
      simp only [sessionMatches, Bool.and_eq_true, decide_eq_true_eq, not_and]
      intro hid
      exact hmis x hx hid
    unfold downloadPdfRoute sessionGet
    rw [hnone]
    rfl
  · intro res sid fn hok
    refine ⟨by simp [downloadPdf, hok], ?_⟩
    intro b f
    simp [downloadPdf, hok]

/-- Witness for `downloadPdf_owner_mismatch`: a one-session store owned by
another user, and a concrete failed download response. -/
theorem downloadPdf_owner_mismatch_witness :
    downloadPdfRoute [{ id := "s1", owner := "alice", pdf := [37, 80] }]
        "s1" "bob" = Except.error StoreError.NotFoundError
    ∧ downloadPdf { ok := false, blob := [1, 2] } "s1" none
        = DownloadOutcome.threw "Download failed" := by
  have h := downloadPdf_owner_mismatch
    [{ id := "s1", owner := "alice", pdf := [37, 80] }] "s1" "bob" (by decide)
  exact ⟨h.1, (h.2 { ok := false, blob := [1, 2] } "s1" none rfl).1⟩

/-- C5: Every `generateCV` invocation issues exactly one HTTP request under
every network behaviour (the request trace is the singleton `generate-cv`
POST, so there is no automatic retry); an ok response returns the parsed
body; a non-ok response throws — never returning a normal result — with the
message taken from the body's detail field when present and non-empty,
falling back to the fixed message otherwise. -/
theorem generateCV_one_request_and_error_surface
    (oracle : String → GenerateCVRequest → GenHttpResponse)
    (body : GenerateCVRequest) :
    (runProg oracle (generateCVProg body)).2 = [(generateCVUrl, body)]
    ∧ ((oracle generateCVUrl body).ok = true →
        (runProg oracle (generateCVProg body)).1
          = Except.ok (oracle generateCVUrl body).genBody)
    ∧ ((oracle generateCVUrl body).ok = false →
        (runProg oracle (generateCVProg body)).1
          = Except.error (generateCVErrorMessage (oracle generateCVUrl body))
        ∧ ∀ r, (runProg oracle (generateCVProg body)).1 ≠ Except.ok r)
    ∧ (∀ (res : GenHttpResponse) (e : ErrBody) (d : String),
        res.errJson = some e → e.detail = some d → d ≠ "" →
        generateCVErrorMessage res = d)
    ∧ (∀ (res : GenHttpResponse) (e : ErrBody),
        res.errJson = some e → e.detail = none →
        generateCVErrorMessage res = "Failed to generate CV") := by
  refine ⟨?_, ?_, ?_, ?_, ?_⟩
  · cases h : (oracle generateCVUrl body).ok <;>
      simp [runProg, generateCVProg, h]
  · intro h
    simp [runProg, generateCVProg, h]
  · intro h
    refine ⟨by simp [runProg, generateCVProg, h], ?_⟩
    intro r
    simp [runProg, generateCVProg, h]
  · intro res e d he hd hne
    simp [generateCVErrorMessage, he, hd, jsOrString, hne]
  · intro res e he hd
    simp [generateCVErrorMessage, he, hd, jsOrString]

/-- The request body used to evaluate the `generateCV` theorems on a closed
input. -/
def sampleGenRequest : GenerateCVRequest :=
  { profile := emptyProfile, job_description := "Job",
    personal_summary := none, additional_urls := [], language := "en",
    template := none }

/-- An arbitrary parsed success payload used by the closed evaluations. -/
def sampleGenResponse : GenerateCVResponse :=
  { session_id := "sid-123", tailored_summary := "Summary",
    tailored_experience := [], motivation_letter := "Letter",
    suggested_skills_highlight := [], status := "success" }

/-- A network behaviour that fails every request with a JSON body carrying
`detail: "Server error"`. -/
def failingOracle : String → GenerateCVRequest → GenHttpResponse :=
  fun _ _ =>
    { ok := false, statusText := "Internal Server Error",
      errJson := some { detail := some "Server error" },
      genBody := sampleGenResponse }

/-- Witness for `generateCV_one_request_and_error_surface`: against the
always-failing network, the call issues the single `generate-cv` request and
throws the body's detail message. -/
theorem generateCV_one_request_and_error_surface_witness :
    (runProg failingOracle (generateCVProg sampleGenRequest)).2
      = [(generateCVUrl, sampleGenRequest)]
    ∧ (runProg failingOracle (generateCVProg sampleGenRequest)).1
      = Except.error "Server error" := by
  have h := generateCV_one_request_and_error_surface failingOracle
    sampleGenRequest
  refine ⟨h.1, ?_⟩
  have he := (h.2.2.1 rfl).1
  have hm := h.2.2.2.1 (failingOracle generateCVUrl sampleGenRequest)
    { detail := some "Server error" } "Server error" rfl rfl (by decide)
  rw [he, hm]

/-- C6 counterexample: `getGeneratedCVs` does not surface every failure
response as an error — a 401 response (not ok) is converted into the
normal-looking empty list, even when the response body carried entries. -/
theorem getGeneratedCVs_swallows_401 :
    respOk 401 = false
    ∧ getGeneratedCVs
        { status := 401,
          body := [{ session_id := "s1", created_at := "2024-01-01",
                     has_cv := true, has_letter_pdf := false }] }
        = Except.ok []
    ∧ Except.ok ([] : List GeneratedCVItem)
        ≠ Except.error (α := List GeneratedCVItem) "Failed to load generated CVs" :=
  ⟨rfl, rfl, by simp⟩

/-- C6 amended: `getGeneratedCVs` surfaces every failure response other than
status 401 as an error with the human-readable message
"Failed to load generated CVs"; a 401 response instead degrades to the
empty list (the signed-out state), and an ok response returns the parsed
list unchanged. -/
theorem getGeneratedCVs_surfaces_failures (res : GeneratedListResponse) :
    (res.status = 401 → getGeneratedCVs res = Except.ok [])
    ∧ (res.status ≠ 401 → respOk res.status = false →
        getGeneratedCVs res = Except.error "Failed to load generated CVs")
    ∧ (respOk res.status = true → getGeneratedCVs res = Except.ok res.body) := by
  refine ⟨?_, ?_, ?_⟩
  · intro h
    simp [getGeneratedCVs, h]
  · intro h401 hok
    simp [getGeneratedCVs, h401, hok]
  · intro hok
    have h401 : res.status ≠ 401 := by
      intro e
      rw [e] at hok
      exact absurd hok (by decide)
    simp [getGeneratedCVs, h401, hok]

/-- Witness for `getGeneratedCVs_surfaces_failures`: a 401 yields the empty
list, a 500 yields the error, a 200 yields the body. -/
theorem getGeneratedCVs_surfaces_failures_witness :
    getGeneratedCVs { status := 401, body := [] } = Except.ok []
    ∧ getGeneratedCVs { status := 500, body := [] }
        = Except.error "Failed to load generated CVs"
    ∧ getGeneratedCVs
        { status := 200,
          body := [{ session_id := "s2", created_at := "2024-02-02",
                     has_cv := true, has_letter_pdf := true }] }
        = Except.ok [{ session_id := "s2", created_at := "2024-02-02",
                       has_cv := true, has_letter_pdf := true }] := by
  refine ⟨?_, ?_, ?_⟩
  · exact (getGeneratedCVs_surfaces_failures { status := 401, body := [] }).1 rfl
  · exact (getGeneratedCVs_surfaces_failures
      { status := 500, body := [] }).2.1 (by decide) (by decide)
  · exact (getGeneratedCVs_surfaces_failures
      { status := 200,
        body := [{ session_id := "s2", created_at := "2024-02-02",
                   has_cv := true, has_letter_pdf := true }] }).2.2 (by decide)

/-- C8: `getMe` distinguishes "not signed in" from failure: a status-401
response returns null (ok, no user) without throwing, any other non-ok
response throws "Failed to get user", and an ok response returns the parsed
user payload. -/
theorem getMe_distinguishes_unauthenticated (res : MeResponse) :
    (res.status = 401 → getMe res = Except.ok none)
    ∧ (res.status ≠ 401 → respOk res.status = false →
        getMe res = Except.error "Failed to get user")
    ∧ (respOk res.status = true → getMe res = Except.ok (some res.user)) := by
  refine ⟨?_, ?_, ?_⟩
  · intro h
    simp [getMe, h]
  · intro h401 hok
    simp [getMe, h401, hok]
  · intro hok
    have h401 : res.status ≠ 401 := by
      intro e
      rw [e] at hok
      exact absurd hok (by decide)
    simp [getMe, h401, hok]

/-- Witness for `getMe_distinguishes_unauthenticated`: concrete 401, 500
and 200 responses. -/
theorem getMe_distinguishes_unauthenticated_witness :
    getMe { status := 401, user := { id := "u1", email := "a@b.c" } }
      = Except.ok none
    ∧ getMe { status := 500, user := { id := "u1", email := "a@b.c" } }
      = Except.error "Failed to get user"
    ∧ getMe { status := 200, user := { id := "u1", email := "a@b.c" } }
      = Except.ok (some { id := "u1", email := "a@b.c" }) := by
  refine ⟨?_, ?_, ?_⟩
  · exact (getMe_distinguishes_unauthenticated
      { status := 401, user := { id := "u1", email := "a@b.c" } }).1 rfl
  · exact (getMe_distinguishes_unauthenticated
      { status := 500, user := { id := "u1", email := "a@b.c" } }).2.1
      (by decide) (by decide)
  · exact (getMe_distinguishes_unauthenticated
      { status := 200, user := { id := "u1", email := "a@b.c" } }).2.2
      (by decide)

/-- C7 counterexample: after a successful fetch whose extracted content is
the empty string, `handleFetchJob` does not replace the job-description
field with the returned content — it keeps the previous text. -/
theorem handleFetchJob_keeps_field_on_empty_content :
    handleFetchJobUpdate "old job text" "" = "old job text"
    ∧ ("old job text" : String) ≠ "" := by
  exact ⟨by simp [handleFetchJobUpdate], by decide⟩

/-- C7 amended: a fetch-job-description body includes the url field exactly
when the url argument is non-empty and the text field exactly when the text
argument is non-empty; the UI handler does nothing on a blank input and
otherwise passes exactly one of the two (the trimmed input as url when the
URL toggle is on, as text otherwise), so the body carries exactly one
field; and the handler replaces the job-description field with the returned
content when the content is non-empty, keeping the previous text when the
returned content is empty. -/
theorem fetchJob_request_shape
    (url text : Option String) (jd old content : String) (jobIsUrl : Bool) :
    ((fetchJobDescriptionBody url text).url.isSome
        ↔ ∃ s, url = some s ∧ s ≠ "")
    ∧ ((fetchJobDescriptionBody url text).text.isSome
        ↔ ∃ s, text = some s ∧ s ≠ "")
    ∧ (jsTrim jd = "" → handleFetchJobArgs jd jobIsUrl = FetchJobAction.noop)
    ∧ (jsTrim jd ≠ "" →
        handleFetchJobArgs jd jobIsUrl
          = (if jobIsUrl then FetchJobAction.send (some (jsTrim jd)) none
             else FetchJobAction.send none (some (jsTrim jd)))
        ∧ fetchJobDescriptionBody (some (jsTrim jd)) none
            = { url := some (jsTrim jd), text := none }
        ∧ fetchJobDescriptionBody none (some (jsTrim jd))
            = { url := none, text := some (jsTrim jd) })
    ∧ (content ≠ "" → handleFetchJobUpdate old content = content)
    ∧ handleFetchJobUpdate old "" = old := by
  refine ⟨?_, ?_, ?_, ?_, ?_, ?_⟩
  · cases url with
    | none => simp [fetchJobDescriptionBody, jsOrUndefined]
    | some s =>
        by_cases h : s = "" <;>
          simp [fetchJobDescriptionBody, jsOrUndefined, h]
  · cases text with
    | none => simp [fetchJobDescriptionBody, jsOrUndefined]
    | some s =>
        by_cases h : s = "" <;>
          simp [fetchJobDescriptionBody, jsOrUndefined, h]
  · intro h
    simp [handleFetchJobArgs, h]
  · intro h
    refine ⟨?_, ?_, ?_⟩
    · cases jobIsUrl <;> simp [handleFetchJobArgs, h]
    · simp [fetchJobDescriptionBody, jsOrUndefined, h]
    · simp [fetchJobDescriptionBody, jsOrUndefined, h]
  · intro h
    simp [handleFetchJobUpdate, h]
  · simp [handleFetchJobUpdate]

/-- Witness for `fetchJob_request_shape`: a non-blank pasted input with the
URL toggle off is sent as text only, and a non-empty returned content
replaces the field. -/
theorem fetchJob_request_shape_witness :
    jsTrim " hello " ≠ ""
    ∧ handleFetchJobArgs " hello " false
        = FetchJobAction.send none (some (jsTrim " hello "))
    ∧ fetchJobDescriptionBody none (some (jsTrim " hello "))
        = { url := none, text := some (jsTrim " hello ") }
    ∧ handleFetchJobUpdate "o" "New content" = "New content" := by
  have h := fetchJob_request_shape (some "https://x.example") none
    " hello " "o" "New content" false
  have ht : jsTrim " hello " ≠ "" := by decide
  have hmain := h.2.2.2.1 ht
  refine ⟨ht, ?_, hmain.2.2, h.2.2.2.2.1 (by decide)⟩
  simpa using hmain.1

/-- C9: Only URL rows whose trimmed text starts with "http" survive the
filter applied before persisting onboarding URLs or building a generate
request: every element of the saved list passes the predicate, no passing
element of the input is dropped, and every URL in a request built by
`handleGenerate` passes the predicate and came from the stored list —
so blank or non-http rows never reach the backend. -/
theorem additional_urls_http_filter
    (urls : List String) (ud : UserData) (jd lang tmpl : String) :
    (∀ u ∈ onboardingUrlsToSave urls, jsStartsWith "http" (jsTrim u) = true)
    ∧ (∀ u ∈ urls, jsStartsWith "http" (jsTrim u) = true →
        u ∈ onboardingUrlsToSave urls)
    ∧ (∀ req, handleGenerate (some ud) jd lang tmpl = GenerateAction.call req →
        ∀ u ∈ req.additional_urls,
          jsStartsWith "http" (jsTrim u) = true ∧ u ∈ ud.additional_urls) := by
  refine ⟨?_, ?_, ?_⟩
  · intro u hu
    exact (List.mem_filter.mp hu).2
  · intro u hu hp
    exact List.mem_filter.mpr ⟨hu, hp⟩
  · intro req h
    simp only [handleGenerate, Option.map_some', Option.getD_some] at h
    by_cases hpd : hasProfileData ud.profile
    · rw [if_pos hpd] at h
      injection h with h2
      subst h2
      intro u hu
      have hm := List.mem_filter.mp hu
      exact ⟨hm.2, hm.1⟩
    · rw [if_neg hpd] at h
      cases h

/-- Witness for `additional_urls_http_filter`: a mixed list of rows keeps
exactly the http-prefixed ones. -/
theorem additional_urls_http_filter_witness :
    "https://a.example" ∈ onboardingUrlsToSave
        ["https://a.example", "not-a-url", "", " http://b.example "]
    ∧ jsStartsWith "http"
        (jsTrim (" http://b.example " : String)) = true := by
  have h := additional_urls_http_filter
    ["https://a.example", "not-a-url", "", " http://b.example "]
    { profile := emptyProfile, additional_urls := [],
      personal_summary := "", onboarding_complete := true }
    "jd" "en" "cv_base.html"
  refine ⟨h.2.1 "https://a.example" (by decide) (by decide), ?_⟩
  exact h.1 " http://b.example " (by decide)

/-- C10: `formatDate` is total — on an unparseable date it returns the
input string unchanged, and on a parseable date its output is one of the
relative forms ("just now", minutes/hours/days/weeks ago, "yesterday") or a
locale date string, for every calendar, timestamp and current time. -/
theorem formatDate_total_and_recognized
    (cal : Calendar) (parsed : Option Int) (now : Int) (createdAt : String) :
    (parsed = none → formatDate cal parsed now createdAt = createdAt)
    ∧ (∀ d : Int, parsed = some d →
        recognizedDateForm cal (formatDate cal parsed now createdAt)) := by
  constructor
  · intro h
    subst h
    rfl
  · intro d h
    subst h
    simp only [formatDate]
    unfold recognizedDateForm
    split
    · exact Or.inl rfl
    · split
      · exact Or.inr (Or.inr (Or.inl ⟨_, rfl⟩))
      · split
        · exact Or.inr (Or.inr (Or.inr (Or.inl ⟨_, rfl⟩)))
        · split
          · exact Or.inr (Or.inl rfl)
          · split
            · exact Or.inr (Or.inr (Or.inr (Or.inr (Or.inl ⟨_, rfl⟩))))
            · split
              · exact Or.inr (Or.inr (Or.inr (Or.inr (Or.inr
                  (Or.inl ⟨_, rfl⟩)))))
              · exact Or.inr (Or.inr (Or.inr (Or.inr (Or.inr
                  (Or.inr ⟨_, _, rfl⟩)))))

/-- Witness for `formatDate_total_and_recognized`: an unparseable string
comes back unchanged, and a parseable timestamp yields a recognized form. -/
theorem formatDate_total_and_recognized_witness :
    formatDate sampleCal none 0 "not-a-date" = "not-a-date"
    ∧ recognizedDateForm sampleCal
        (formatDate sampleCal (some 0) 0 "not-a-date") := by
  have h1 := formatDate_total_and_recognized sampleCal none 0 "not-a-date"
  have h2 := formatDate_total_and_recognized sampleCal (some 0) 0 "not-a-date"
  exact ⟨h1.1 rfl, h2.2 0 rfl⟩

end CvTool
